import Mathlib

/-!
# Weather Data Aggregation Service — verification of the core

A shallow embedding of the aggregation core of the Weather Data Aggregation
Service (Python source under `app/`), together with theorems checking the
natural-language specification against it.

Modelling conventions:
* Python strings are Lean `String`s; byte-level details are irrelevant here.
  `str.strip()` is modelled for the ASCII whitespace characters Python strips;
  `str.lower()` is modelled as per-character ASCII lowercasing (the inputs the
  claims are about contain only ASCII).
* Python floats are modelled as exact rationals (`ℚ`).  The decimal literals
  appearing in the code and the arithmetic on readings are computed exactly;
  binary-float representation error, overflow-to-infinity and signed zero are
  abstracted away.  `float(s)` on a finite decimal/exponent literal is modelled
  by `pyParseFloat`; Python additionally accepts `inf`/`nan` spellings and
  underscore digit separators, which never occur on the code paths the claims
  exercise (the coordinate regex rejects them upstream).
* Exceptions are modelled by `Except`; dictionaries returned by the providers
  are modelled by structures with `Option` fields.
-/

namespace WeatherAgg

/-- Decidable equality for `Except`, used to evaluate the model on concrete
inputs. -/
instance {ε α : Type} [DecidableEq ε] [DecidableEq α] : DecidableEq (Except ε α) := fun x y =>
  match x, y with
  | .ok a, .ok b => decidable_of_iff (a = b) (by simp)
  | .error e, .error f => decidable_of_iff (e = f) (by simp)
  | .ok _, .error _ => isFalse (by simp)
  | .error _, .ok _ => isFalse (by simp)

/-! ## Python string primitives -/

/-- Characters removed by Python's `str.strip()` (ASCII fragment). -/
def isPySpace (c : Char) : Bool :=
  c = ' ' || c = '\t' || c = '\n' || c = '\x0d' || c = '\x0b' || c = '\x0c'

/-- `str.strip()` on a character list: drop leading and trailing whitespace. -/
def stripList (cs : List Char) : List Char :=
  ((cs.dropWhile isPySpace).reverse.dropWhile isPySpace).reverse

/-- `location.strip()`. -/
def pyStrip (s : String) : String :=
  ⟨stripList s.data⟩

/-- `location.lower()` (ASCII fragment). -/
def pyLower (s : String) : String :=
  ⟨s.data.map Char.toLower⟩

/-- `location.count(',')`. -/
def commaCountL (cs : List Char) : Nat :=
  cs.count ','

/-- `location.count(',')` on strings. -/
def commaCount (s : String) : Nat :=
  commaCountL s.data

/-- Evaluate `f` on every element, succeeding only when every application
succeeds (the semantics of a Python list comprehension whose body may raise,
inside a `try`). -/
def optionMapAll {α β : Type} (f : α → Option β) : List α → Option (List β)
  | [] => some []
  | a :: t =>
    match f a, optionMapAll f t with
    | some b, some bs => some (b :: bs)
    | _, _ => none

/-- `location.split(',')` on character lists: split at every comma, keeping
empty parts, exactly like Python's `str.split(',')`. -/
def splitComma : List Char → List (List Char)
  | [] => [[]]
  | c :: rest =>
    if c = ',' then [] :: splitComma rest
    else
      match splitComma rest with
      | [] => [[c]]
      | h :: t => (c :: h) :: t

/-! ## Python `float(...)` on finite decimal literals -/

/-- Decimal digit test. -/
def isDigitCh (c : Char) : Bool :=
  '0' ≤ c && c ≤ '9'

/-- Numeric value of a digit string (most significant first). -/
def digitsToNat (ds : List Char) : Nat :=
  ds.foldl (fun a c => 10 * a + (c.toNat - 48)) 0

/-- Optional `+`/`-` sign; returns (negative?, rest). -/
def parseSign : List Char → Bool × List Char
  | '+' :: r => (false, r)
  | '-' :: r => (true, r)
  | cs => (false, cs)

/-- Optional exponent suffix `([eE][+-]?\d+)?$`; `none` on trailing garbage. -/
def parseExpPart : List Char → Option Int
  | [] => some 0
  | c :: r =>
    if c = 'e' || c = 'E' then
      let (eneg, r2) := parseSign r
      let eds := r2.takeWhile isDigitCh
      let r3 := r2.dropWhile isDigitCh
      if eds.isEmpty || !r3.isEmpty then none
      else some (if eneg then -(digitsToNat eds : Int) else (digitsToNat eds : Int))
    else none

/-- The syntactic pieces of a finite Python float literal: sign, the values
of the integer and fraction digit groups, the fraction length and the
exponent. -/
structure FloatParts where
  neg : Bool
  intDigits : Nat
  fracDigits : Nat
  fracLen : Nat
  exp : Int
  deriving DecidableEq

/-- The exact rational value of a parsed float literal:
`±(intDigits + fracDigits/10^fracLen) × 10^exp`. -/
def FloatParts.toRat (p : FloatParts) : ℚ :=
  let mant : ℚ := (p.intDigits : ℚ) + (p.fracDigits : ℚ) / (10 : ℚ) ^ p.fracLen
  let v := mant * (10 : ℚ) ^ p.exp
  if p.neg then -v else v

/-- Syntax of a finite Python float literal: optional surrounding
whitespace, optional sign, `digits[.digits?] | .digits`, optional exponent;
`none` when `float` would raise `ValueError`. -/
def pyFloatParts (cs0 : List Char) : Option FloatParts :=
  let cs := stripList cs0
  let (neg, cs1) := parseSign cs
  let ids := cs1.takeWhile isDigitCh
  let cs2 := cs1.dropWhile isDigitCh
  match cs2 with
  | '.' :: cs3 =>
    let fds := cs3.takeWhile isDigitCh
    let cs4 := cs3.dropWhile isDigitCh
    if ids.isEmpty && fds.isEmpty then none
    else (parseExpPart cs4).map fun e => ⟨neg, digitsToNat ids, digitsToNat fds, fds.length, e⟩
  | _ =>
    if ids.isEmpty then none
    else (parseExpPart cs2).map fun e => ⟨neg, digitsToNat ids, 0, 0, e⟩

/-- Python `float(s)` on a finite decimal literal, as an exact rational.
(`inf`/`nan` spellings and underscore separators are outside the modelled
fragment; see the module docstring.) -/
def pyParseFloatL (cs : List Char) : Option ℚ :=
  (pyFloatParts cs).map FloatParts.toRat

/-- `float(s)` on strings. -/
def pyParseFloat (s : String) : Option ℚ :=
  pyParseFloatL s.data

/-! ## `utils.is_coordinates`: the regex `^-?\d+(?:\.\d+)?,-?\d+(?:\.\d+)?$` -/

/-- Match one `-?\d+(?:\.\d+)?` token at the front; returns the unconsumed
rest on success.  The optional fraction group is taken only when a digit
follows the dot, as the regex engine does. -/
def matchDecTok (cs0 : List Char) : Option (List Char) :=
  let cs := match cs0 with
    | '-' :: r => r
    | _ => cs0
  let ids := cs.takeWhile isDigitCh
  let rest := cs.dropWhile isDigitCh
  if ids.isEmpty then none
  else
    match rest with
    | '.' :: r2 =>
      let fds := r2.takeWhile isDigitCh
      if fds.isEmpty then some rest else some (r2.dropWhile isDigitCh)
    | _ => some rest

/-- Full match of `COORDINATE_PATTERN = ^-?\d+(?:\.\d+)?,-?\d+(?:\.\d+)?$`. -/
def coordRegexMatch (cs : List Char) : Bool :=
  match matchDecTok cs with
  | some (',' :: rest) =>
    match matchDecTok rest with
    | some [] => true
    | _ => false
  | _ => false

/-- `utils.is_coordinates`: strip, require exactly one comma, then the
coordinate regex. -/
def is_coordinates (location : String) : Bool :=
  let loc := stripList location.data
  commaCountL loc = 1 && coordRegexMatch loc

/-! ## Validation errors (`app.core.exceptions.ValidationError`)

Each constructor stands for the `ValidationError` carrying the exact message
raised at the corresponding place in `app/utils/utils.py`:
* `emptyLocation`      — "Location cannot be empty"
* `cityEmpty`          — "City name cannot be empty"
* `cityTooShort`       — "City name must be at least 2 characters"
* `cityTooLong`        — "City name too long (max 100 characters)"
* `cityNoLetter`       — "City name must contain at least one letter"
* `invalidCoordFormat` — "Invalid coordinate format"
* `emptyCoord`         — "Coordinate string cannot be empty"
* `coordPairFormat`    — "Coordinates must be in format 'latitude,longitude'"
* `coordNotNumbers`    — "Both latitude and longitude must be valid numbers"
* `latOutOfRange lat`  — "Latitude {lat} is out of range. Must be between
                          -90.0 and 90.0" (names the latitude field and bound)
* `lonOutOfRange lon`  — "Longitude {lon} is out of range. Must be between
                          -180.0 and 180.0" (names the longitude field and bound)
* `tooManyCommas`      — "Too many commas. Use 'latitude,longitude' for
                          coordinates"
-/
inductive VErr where
  | emptyLocation
  | cityEmpty
  | cityTooShort
  | cityTooLong
  | cityNoLetter
  | invalidCoordFormat
  | emptyCoord
  | coordPairFormat
  | coordNotNumbers
  | latOutOfRange (lat : ℚ)
  | lonOutOfRange (lon : ℚ)
  | tooManyCommas
  deriving DecidableEq

/-- `utils.parse_coordinates`: strip, check non-empty and exactly one comma,
split, `float` both parts (each part is `.strip()`ed, which `pyParseFloatL`
performs itself), then the range checks, latitude first. -/
def parse_coordinates (location : String) : Except VErr (ℚ × ℚ) :=
  let loc := stripList location.data
  if loc.isEmpty then .error .emptyCoord
  else if commaCountL loc ≠ 1 then .error .coordPairFormat
  else
    match (splitComma loc).map pyParseFloatL with
    | some lat :: some lon :: _ =>
      if ¬(-90 ≤ lat ∧ lat ≤ 90) then .error (.latOutOfRange lat)
      else if ¬(-180 ≤ lon ∧ lon ≤ 180) then .error (.lonOutOfRange lon)
      else .ok (lat, lon)
    | _ => .error .coordNotNumbers

/-- `utils.validate_city_name`. -/
def validate_city_name (cityName : String) : Except VErr Unit :=
  let c := stripList cityName.data
  if c.isEmpty then .error .cityEmpty
  else if c.length < 2 then .error .cityTooShort
  else if c.length > 100 then .error .cityTooLong
  else if !(c.any fun ch => ('a' ≤ ch && ch ≤ 'z') || ('A' ≤ ch && ch ≤ 'Z')) then
    .error .cityNoLetter
  else .ok ()

/-- `utils.validate_input_format`: strip, reject empty, then dispatch on the
comma count: 0 → city name, 1 → regex check then `parse_coordinates`,
≥2 → reject. -/
def validate_input_format (location : String) : Except VErr Unit :=
  let loc : String := ⟨stripList location.data⟩
  if loc.data.isEmpty then .error .emptyLocation
  else
    let cc := commaCountL loc.data
    if cc = 0 then validate_city_name loc
    else if cc = 1 then
      if !is_coordinates loc then .error .invalidCoordFormat
      else (parse_coordinates loc).map fun _ => ()
    else .error .tooManyCommas

/-! ## Rounding and fixed-point formatting -/

/-- Round to the nearest integer, ties to even — the rounding used by
Python's `round(x, n)` and `"{:.4f}"` formatting (on the exact value; the
binary-float representation step is abstracted away, see module docstring). -/
def roundHalfEven (q : ℚ) : Int :=
  let f := ⌊q⌋
  let frac := q - (f : ℚ)
  if frac < 1 / 2 then f
  else if 1 / 2 < frac then f + 1
  else if f % 2 = 0 then f else f + 1

/-- Python `round(x, 1)`. -/
def round1 (q : ℚ) : ℚ :=
  (roundHalfEven (q * 10) : ℚ) / 10

/-- Left-pad the fractional part to 4 digits. -/
def pad4 (k : Nat) : String :=
  if k < 10 then "000" ++ toString k
  else if k < 100 then "00" ++ toString k
  else if k < 1000 then "0" ++ toString k
  else toString k

/-- Python `f"{x:.4f}"`: round half-to-even at 4 decimals and render with a
sign taken from the value (so small negatives render as `-0.0000`). -/
def fmt4 (q : ℚ) : String :=
  (if q < 0 then "-" else "")
    ++ toString ((roundHalfEven (q * 10000)).natAbs / 10000)
    ++ "." ++ pad4 ((roundHalfEven (q * 10000)).natAbs % 10000)

/-! ## `app.core.cache.WeatherCache._normalize_key` -/

/-- `WeatherCache._normalize_key`: strip and lowercase; when the result
contains a comma and every comma-separated part parses as a float and there
are exactly two parts, re-render both to 4 decimal places; otherwise keep the
stripped lowercased string. -/
def _normalize_key (location : String) : String :=
  let normalized := (stripList location.data).map Char.toLower
  if normalized.contains ',' then
    match optionMapAll pyParseFloatL (splitComma normalized) with
    | some parts =>
      match parts with
      | [a, b] => fmt4 a ++ "," ++ fmt4 b
      | _ => ⟨normalized⟩
    | none => ⟨normalized⟩
  else ⟨normalized⟩

/-! ## Data model of `app.core.service` -/

/-- The per-provider status record (`result["source"]`): provider name,
status string and elapsed time. -/
structure SourceInfo where
  provider : String
  status : String
  response_time_ms : ℚ
  deriving DecidableEq

/-- The normalized dictionary a provider adapter returns.  Success responses
carry the reading fields; the failure marker built by
`_create_failure_response` carries only `source` (its absent keys are
modelled as `none`). -/
structure ProviderData where
  name : Option String
  temperature : Option ℚ
  humidity : Option ℚ
  description : Option String
  source : SourceInfo
  deriving DecidableEq

/-- One entry of the `asyncio.gather(..., return_exceptions=True)` result
list: a raised exception, `None` (OpenMeteo's geocoding-failure return), or a
returned dictionary (which always carries `"source"`). -/
inductive FetchOutcome where
  | exn
  | nullResult
  | ok (d : ProviderData)
  deriving DecidableEq

/-- The `temperature` object of the response envelope. -/
structure TempField where
  value : Option ℚ
  unit : String
  method : String
  deriving DecidableEq

/-- The aggregated response envelope. -/
structure Response where
  location : String
  temperature : TempField
  humidity : Option ℚ
  conditions : String
  sources : List SourceInfo
  timestamp : String
  deriving DecidableEq

/-- Errors surfaced by `get_aggregated_weather`:
`ValidationError`, `ConfigurationError` (missing API keys), `ProviderError`
("All weather providers failed to return current weather data ..."). -/
inductive AggError where
  | validation (e : VErr)
  | configuration
  | provider
  deriving DecidableEq

/-- The fixed provider order of `_fetch_all_providers` / `_process_results`. -/
def PROVIDER_NAMES : List String :=
  ["OpenWeatherMap", "WeatherAPI", "OpenMeteo"]

/-- `WeatherAggregationService._process_results`: walk the gather results
paired with their provider names; a non-exception, non-`None` result with
`source.status == "success"` contributes its data and its source record; any
other result with a `source` contributes just its source record; an exception
or `None` contributes a synthesized `"failure with exception"` record. -/
def _process_results : List (String × FetchOutcome) → List ProviderData × List SourceInfo
  | [] => ([], [])
  | (provider, outcome) :: rest =>
    let (wd, srcs) := _process_results rest
    match outcome with
    | .ok d =>
      if d.source.status = "success" then (d :: wd, d.source :: srcs)
      else (wd, d.source :: srcs)
    | _ => (wd, ⟨provider, "failure with exception", 0⟩ :: srcs)

/-- Python's `sorted(data)` (the value sequence; stability is irrelevant for
numbers). -/
def sortAsc (l : List ℚ) : List ℚ :=
  l.insertionSort (· ≤ ·)

/-- `statistics.median`: sort; odd length takes the middle element, even
length averages the two middle elements.  Junk value `0` on `[]` (the code
guards against the empty case). -/
def pyMedian (l : List ℚ) : ℚ :=
  let s := sortAsc l
  let n := s.length
  if n % 2 = 1 then s.getD (n / 2) 0
  else (s.getD (n / 2 - 1) 0 + s.getD (n / 2) 0) / 2

/-- `max(set(descriptions), key=descriptions.count)`: an element of maximal
count.  Python iterates the set in hash order; the model fixes
first-occurrence order (the claims do not depend on the tie-break). -/
def mostCommonDesc (descs : List String) : String :=
  (descs.dedup).foldl (fun best d => if descs.count best < descs.count d then d else best)
    (descs.dedup.headD "")

/-- `temperatures = [data["temperature"] for data in weather_data if
data["temperature"] is not None]`. -/
def tempsOf (weather_data : List ProviderData) : List ℚ :=
  weather_data.filterMap fun d => d.temperature

/-- `humidities = [data["humidity"] for data in weather_data if
data["humidity"] is not None]`. -/
def humsOf (weather_data : List ProviderData) : List ℚ :=
  weather_data.filterMap fun d => d.humidity

/-- `descriptions = [data["description"] for data in weather_data if
data["description"] is not None]`. -/
def descsOf (weather_data : List ProviderData) : List String :=
  weather_data.filterMap fun d => d.description

/-- `WeatherAggregationService._build_response`: median of the non-null
temperatures, mean of the non-null humidities, mode of the non-null
descriptions, each aggregate rounded to 1 decimal, all source records passed
through. -/
def _build_response (location : String) (weather_data : List ProviderData)
    (all_sources : List SourceInfo) (timestamp : String) : Response :=
  let temperatures := tempsOf weather_data
  let median_temp : Option ℚ := if temperatures.isEmpty then none else some (pyMedian temperatures)
  let humidities := humsOf weather_data
  let average_humidity : Option ℚ :=
    if humidities.isEmpty then none
    else some (humidities.sum / (humidities.length : ℚ))
  let descriptions := descsOf weather_data
  let most_common_description :=
    if descriptions.isEmpty then "Weather data unavailable" else mostCommonDesc descriptions
  { location := location
    temperature :=
      { value := median_temp.map round1
        unit := "celsius"
        method := "median" }
    humidity := average_humidity.map round1
    conditions := most_common_description
    sources := all_sources
    timestamp := timestamp }

/-- `WeatherAggregationService.get_aggregated_weather`, shallowly embedded
over its environment: `cache` is the cache's underlying store (looked up
under the normalized key, as `weather_cache.get` does), `keysOk` is whether
`validate_api_keys` succeeds, `results` the outcomes of the three concurrent
provider fetches (in `PROVIDER_NAMES` order) and `ts` the timestamp.  The
final `except`-clause of the Python method logs and re-raises, leaving the
outcome unchanged. -/
def get_aggregated_weather (location : String) (cache : String → Option Response)
    (keysOk : Bool) (results : List FetchOutcome) (ts : String) : Except AggError Response :=
  let loc := pyStrip location
  match validate_input_format loc with
  | .error e => .error (.validation e)
  | .ok _ =>
    match cache (_normalize_key loc) with
    | some cached => .ok cached
    | none =>
      if !keysOk then .error .configuration
      else
        let processed := _process_results (PROVIDER_NAMES.zip results)
        if processed.1.isEmpty then .error .provider
        else .ok (_build_response loc processed.1 processed.2 ts)

/-- Spec-side predicate of claim C1: the fetch produced a result whose source
status is `"success"`. -/
def producedSuccess : FetchOutcome → Bool
  | .ok d => d.source.status = "success"
  | _ => false

/-- Spec-side characterization for claim C1: the data of exactly the
successful provider fetches, in order. -/
def successfulData (results : List FetchOutcome) : List ProviderData :=
  results.filterMap fun o =>
    match o with
    | .ok d => if d.source.status = "success" then some d else none
    | _ => none

/-! ## Provider adapters (`app.providers`) -/

/-- A Python exception value, kept abstract (only its identity matters). -/
inductive PyExn where
  | exn (msg : String)
  deriving DecidableEq

/-- The dictionary `make_api_request` returns (the fields the adapters read:
`status` and `response_time_ms`; the parsed JSON body is left abstract and is
consumed only by the per-provider `_process_successful_response`, which the
adapter models take as a parameter). -/
structure ApiResult where
  provider : String
  status : String
  response_time_ms : ℚ
  deriving DecidableEq

/-- `BaseWeatherProvider._create_failure_response`: the uniform failure
marker — a dictionary holding only `source` with the provider name, the
status `"failure"` and the elapsed time. -/
def _create_failure_response (provider_name : String) (result : ApiResult) : ProviderData :=
  { name := none
    temperature := none
    humidity := none
    description := none
    source :=
      { provider := provider_name
        status := "failure"
        response_time_ms := result.response_time_ms } }

/-- `BaseWeatherProvider.fetch_weather` (used by the OpenWeatherMap and
WeatherAPI adapters), embedded over the outcomes of its three steps:
`prepare` — `_prepare_request_params` (may raise), `api` — the result of
`make_api_request` (never raises), `process` — `_process_successful_response`
on that result (may raise, e.g. `KeyError` on an unexpected body).  The
`except`-clause logs and **re-raises**, so a raised exception propagates past
the adapter boundary (to be absorbed by the service's `gather`). -/
def base_fetch_weather (provider_name : String) (prepare : Except PyExn Unit)
    (api : ApiResult) (process : Except PyExn ProviderData) : Except PyExn ProviderData :=
  match prepare with
  | .error e => .error e
  | .ok _ =>
    if api.status = "success" then process
    else .ok (_create_failure_response provider_name api)

/-- `OpenMeteoProvider._fetch_with_coordinates`: forward to the HTTP request;
on success delegate to `_process_successful_response` (which may raise), on
failure build the uniform failure marker. -/
def openmeteo_fetch_with_coordinates (api : ApiResult)
    (process : Except PyExn ProviderData) : Except PyExn ProviderData :=
  if api.status = "success" then process
  else .ok (_create_failure_response "OpenMeteo" api)

/-- `OpenMeteoProvider.fetch_weather` (overrides the base): for coordinates,
`parse_coordinates` then fetch; for a city name, geocode first (`geocode` is
the result of `_geocode_location`, which catches its own errors and returns
`None` on failure).  The surrounding `try/except` swallows every exception
and the method then returns `None` — so on geocoding failure or any internal
error OpenMeteo yields `None`, not a failure marker, and never raises. -/
def openmeteo_fetch_weather (location : String) (is_coords : Bool)
    (geocode : Option (ℚ × ℚ)) (api : ApiResult)
    (process : Except PyExn ProviderData) : Option ProviderData :=
  let body : Except PyExn (Option ProviderData) :=
    if is_coords then
      match parse_coordinates location with
      | .error _ => .error (.exn "ValidationError")
      | .ok _ => (openmeteo_fetch_with_coordinates api process).map some
    else
      match geocode with
      | some _ => (openmeteo_fetch_with_coordinates api process).map some
      | none => .ok none
  match body with
  | .ok r => r
  | .error _ => none

/-! ## HTTP helper (`app.http.http_helper`) -/

/-- Default retry configuration (`RETRY_CONFIG` with the default environment):
`max_retries=3`, `base_delay=1.0`, `max_delay=16.0`, `jitter_factor=0.1`,
`backoff_multiplier=2.0`. -/
def MAX_RETRIES : Nat := 3

def BASE_DELAY : ℚ := 1

def MAX_DELAY : ℚ := 16

def JITTER_FACTOR : ℚ := 1 / 10

def BACKOFF_MULTIPLIER : ℚ := 2

/-- `calculate_retry_delay` with explicit configuration, the random draw
`random.random()*2 - 1` passed in as `u ∈ [-1, 1)`:
`max(0.1, min(max_delay, base*mult^attempt) * (1 + jitter_factor*u))`. -/
def calculate_retry_delay_cfg (base mult maxd jf : ℚ) (attempt : Nat) (u : ℚ) : ℚ :=
  let delay := min (base * mult ^ attempt) maxd
  let jitter := delay * jf * u
  max (1 / 10) (delay + jitter)

/-- `calculate_retry_delay` under the default `RETRY_CONFIG`. -/
def calculate_retry_delay (attempt : Nat) (u : ℚ) : ℚ :=
  calculate_retry_delay_cfg BASE_DELAY BACKOFF_MULTIPLIER MAX_DELAY JITTER_FACTOR attempt u

/-- What one attempt of the `for` loop of `make_api_request` observes:
an HTTP response with a status code (and, for 200, whether the body parsed as
JSON), a timeout, an `aiohttp.ClientError`, or any other exception. -/
inductive AttemptOutcome where
  | httpStatus (code : Nat) (jsonOk : Bool)
  | timeout
  | netError
  | unexpected
  deriving DecidableEq

/-- An interaction of `make_api_request` with the provider's token bucket:
the single `wait_for_token` acquisition, or a `tokens = min(max, tokens+1)`
refund. -/
inductive BucketOp where
  | acquire
  | refund
  deriving DecidableEq

/-- Aggregate outcome of one `make_api_request` call in the trace model:
how many attempts ran, the bucket operations performed after the initial
acquisition, and the final status tag. -/
structure ApiTrace where
  attempts : Nat
  ops : List BucketOp
  status : String
  deriving DecidableEq

/-- The `for attempt in range(max_retries+1)` loop of `make_api_request`,
consuming one `AttemptOutcome` per attempt (`attempt` is the current index):
* HTTP 200 with a JSON body → return success;
* HTTP 200 with a bad body → record the error and retry;
* HTTP 429 → refund one token, record, retry;
* HTTP 5xx → record, retry;
* other HTTP 4xx → return failure immediately, no retry;
* any other status → record, retry;
* timeout / network error → retry unless this was the last attempt;
* unexpected exception → refund one token, return failure immediately.
Falling off the loop returns the exhausted-retries failure with
`attempts = max_retries+1`. -/
def attemptLoop (maxRetries : Nat) : Nat → List AttemptOutcome → ApiTrace
  | attempt, [] => ⟨attempt, [], "failure - exhausted"⟩
  | attempt, o :: rest =>
    let attemptNum := attempt + 1
    let exhausted : ApiTrace := ⟨maxRetries + 1, [], "failure - exhausted"⟩
    let continueWith (ops : List BucketOp) : ApiTrace :=
      if attempt < maxRetries then
        let t := attemptLoop maxRetries (attempt + 1) rest
        ⟨t.attempts, ops ++ t.ops, t.status⟩
      else ⟨maxRetries + 1, ops, "failure - exhausted"⟩
    match o with
    | .httpStatus code jsonOk =>
      if code = 200 then
        if jsonOk then ⟨attemptNum, [], "success"⟩
        else continueWith []
      else if code = 429 then continueWith [.refund]
      else if 500 ≤ code ∧ code < 600 then continueWith []
      else if 400 ≤ code ∧ code < 500 then ⟨attemptNum, [], "failure - client error"⟩
      else continueWith []
    | .timeout => if attempt = maxRetries then exhausted else continueWith []
    | .netError => if attempt = maxRetries then exhausted else continueWith []
    | .unexpected => ⟨attemptNum, [.refund], "failure - unexpected"⟩

/-- Token-bucket trace of `make_api_request`: `bucket.wait_for_token()` is
awaited exactly once, before the retry loop; the loop itself only ever
refunds. -/
def make_api_request_trace (maxRetries : Nat) (outcomes : List AttemptOutcome) : ApiTrace :=
  let t := attemptLoop maxRetries 0 outcomes
  ⟨t.attempts, .acquire :: t.ops, t.status⟩

/-! ## `SimpleTokenBucket` -/

/-- The mutable state of `SimpleTokenBucket`. -/
structure Bucket where
  max_tokens : ℚ
  refill_rate : ℚ
  tokens : ℚ
  last_refill : ℚ
  deriving DecidableEq

/-- `SimpleTokenBucket._refill` at clock reading `now`:
`tokens = min(max_tokens, tokens + (now - last_refill) * refill_rate)`. -/
def Bucket.refill (b : Bucket) (now : ℚ) : Bucket :=
  { b with
    tokens := min b.max_tokens (b.tokens + (now - b.last_refill) * b.refill_rate)
    last_refill := now }

/-- The token refund `bucket.tokens = min(bucket.max_tokens, bucket.tokens + 1)`
performed by `make_api_request` on HTTP 429 and on unexpected errors. -/
def Bucket.refund (b : Bucket) : Bucket :=
  { b with tokens := min b.max_tokens (b.tokens + 1) }

/-- `SimpleTokenBucket.wait_for_token`, driven by the successive `time.time()`
readings of its polling loop: refill, and if at least one token is available
consume it and stop; otherwise sleep and poll again.  Returns `none` when the
clock list is exhausted before a token was available. -/
def Bucket.waitForToken (b : Bucket) : List ℚ → Option Bucket
  | [] => none
  | now :: rest =>
    let b' := b.refill now
    if 1 ≤ b'.tokens then some { b' with tokens := b'.tokens - 1 }
    else b'.waitForToken rest

/-- The token-bucket invariant of claim C10. -/
def Bucket.Inv (b : Bucket) : Prop :=
  0 ≤ b.tokens ∧ b.tokens ≤ b.max_tokens

/-! ## Theorems -/

/-- C8. For every attempt number `n ≥ 0` and random draw `u ∈ [-1, 1]`,
`calculate_retry_delay(n)` equals `max(0.1, d + j)` where
`d = min(max_delay, base_delay × multiplier^n)` and the jitter `j` satisfies
`|j| ≤ d × jitter_factor`; in particular `calculate_retry_delay(0)` lies
within `base_delay ± jitter` (i.e. in `[0.9, 1.1]`) and
`calculate_retry_delay(2)` lies within `base_delay×multiplier² ± jitter`
capped at `max_delay` (i.e. in `[3.6, 4.4]`). -/
theorem retry_delay_backoff_with_jitter (n : Nat) (u : ℚ) (hu₁ : -1 ≤ u) (hu₂ : u ≤ 1) :
    (∃ j : ℚ,
      |j| ≤ min (BASE_DELAY * BACKOFF_MULTIPLIER ^ n) MAX_DELAY * JITTER_FACTOR ∧
      calculate_retry_delay n u
        = max (1 / 10) (min (BASE_DELAY * BACKOFF_MULTIPLIER ^ n) MAX_DELAY + j))
    ∧ (9 / 10 ≤ calculate_retry_delay 0 u ∧ calculate_retry_delay 0 u ≤ 11 / 10)
    ∧ (18 / 5 ≤ calculate_retry_delay 2 u ∧ calculate_retry_delay 2 u ≤ 22 / 5) := by
  have hd : (0 : ℚ) ≤ min (BASE_DELAY * BACKOFF_MULTIPLIER ^ n) MAX_DELAY := by
    have h1 : (0 : ℚ) ≤ BASE_DELAY * BACKOFF_MULTIPLIER ^ n := by
      unfold BASE_DELAY BACKOFF_MULTIPLIER
      positivity
    have h2 : (0 : ℚ) ≤ MAX_DELAY := by norm_num [MAX_DELAY]
    exact le_min h1 h2
  refine ⟨⟨min (BASE_DELAY * BACKOFF_MULTIPLIER ^ n) MAX_DELAY * JITTER_FACTOR * u, ?_, ?_⟩, ?_, ?_⟩
  · have habs : |u| ≤ 1 := abs_le.mpr ⟨hu₁, hu₂⟩
    have hjf : (0 : ℚ) ≤ JITTER_FACTOR := by norm_num [JITTER_FACTOR]
    calc |min (BASE_DELAY * BACKOFF_MULTIPLIER ^ n) MAX_DELAY * JITTER_FACTOR * u|
        = |min (BASE_DELAY * BACKOFF_MULTIPLIER ^ n) MAX_DELAY * JITTER_FACTOR| * |u| := abs_mul _ _
      _ ≤ |min (BASE_DELAY * BACKOFF_MULTIPLIER ^ n) MAX_DELAY * JITTER_FACTOR| * 1 := by
          exact mul_le_mul_of_nonneg_left habs (abs_nonneg _)
      _ = min (BASE_DELAY * BACKOFF_MULTIPLIER ^ n) MAX_DELAY * JITTER_FACTOR := by
          rw [mul_one, abs_of_nonneg (mul_nonneg hd hjf)]
  · simp [calculate_retry_delay, calculate_retry_delay_cfg, mul_assoc]
  · have h : calculate_retry_delay 0 u = max (1 / 10) (1 + 1 / 10 * u) := by
      norm_num [calculate_retry_delay, calculate_retry_delay_cfg, BASE_DELAY, BACKOFF_MULTIPLIER,
        MAX_DELAY, JITTER_FACTOR]
    rw [h, max_eq_right (by linarith)]
    constructor <;> linarith
  · have h : calculate_retry_delay 2 u = max (1 / 10) (4 + 4 / 10 * u) := by
      norm_num [calculate_retry_delay, calculate_retry_delay_cfg, BASE_DELAY, BACKOFF_MULTIPLIER,
        MAX_DELAY, JITTER_FACTOR]
    rw [h, max_eq_right (by linarith)]
    constructor <;> linarith

/-- Witness for C8 at `n = 5`, `u = 1/2`. -/
theorem retry_delay_backoff_with_jitter_witness :
    (-1 : ℚ) ≤ 1 / 2 ∧ (1 : ℚ) / 2 ≤ 1 ∧
    (9 / 10 ≤ calculate_retry_delay 0 (1 / 2) ∧ calculate_retry_delay 0 (1 / 2) ≤ 11 / 10) :=
  ⟨by norm_num, by norm_num,
    (retry_delay_backoff_with_jitter 5 (1 / 2) (by norm_num) (by norm_num)).2.1⟩

/-- `_refill` preserves the invariant when the clock does not go backwards. -/
lemma Bucket.refill_inv {b : Bucket} (hrate : 0 ≤ b.refill_rate) (hinv : b.Inv)
    {now : ℚ} (hnow : b.last_refill ≤ now) : (b.refill now).Inv := by
  obtain ⟨h0, hmax⟩ := hinv
  constructor
  · have : 0 ≤ (now - b.last_refill) * b.refill_rate :=
      mul_nonneg (by linarith) hrate
    have : 0 ≤ b.tokens + (now - b.last_refill) * b.refill_rate := by linarith
    have hm0 : 0 ≤ b.max_tokens := le_trans h0 hmax
    simpa [Bucket.refill, Bucket.Inv] using le_min hm0 this
  · simp [Bucket.refill, Bucket.Inv]

/-- `_refill` does not change the configuration fields. -/
lemma Bucket.refill_config (b : Bucket) (now : ℚ) :
    (b.refill now).max_tokens = b.max_tokens ∧ (b.refill now).refill_rate = b.refill_rate ∧
    (b.refill now).last_refill = now := by
  simp [Bucket.refill]

/-- `wait_for_token` preserves the invariant: it only refills (with
non-decreasing clock readings) and deducts one token when at least one is
available. -/
lemma Bucket.waitForToken_inv :
    ∀ (clocks : List ℚ) (b : Bucket), 0 ≤ b.refill_rate → b.Inv →
      List.Chain (· ≤ ·) b.last_refill clocks →
      ∀ b', b.waitForToken clocks = some b' → b'.Inv
  | [], b, _, _, _, b', h => by simp [Bucket.waitForToken] at h
  | now :: rest, b, hrate, hinv, hchain, b', h => by
    rw [List.chain_cons] at hchain
    obtain ⟨hle, hchain'⟩ := hchain
    have hinv' : (b.refill now).Inv := Bucket.refill_inv hrate hinv hle
    rw [Bucket.waitForToken] at h
    by_cases htok : 1 ≤ (b.refill now).tokens
    · rw [if_pos htok] at h
      obtain ⟨h0, hmax⟩ := hinv'
      cases h
      exact ⟨by simp; linarith, by simp; linarith⟩
    · rw [if_neg htok] at h
      have hrate' : 0 ≤ (b.refill now).refill_rate := by simpa [Bucket.refill] using hrate
      have hchain'' : List.Chain (· ≤ ·) (b.refill now).last_refill rest := by
        simpa [Bucket.refill] using hchain'
      exact Bucket.waitForToken_inv rest (b.refill now) hrate' hinv' hchain'' b' h

/-- C10. For every `SimpleTokenBucket` state satisfying `0 ≤ tokens ≤
max_tokens`, with a non-negative refill rate and non-decreasing clock
readings, the invariant holds after every operation: `_refill` caps the
balance at `max_tokens` and keeps it non-negative, `wait_for_token` (which
deducts 1 only when at least 1 token is available) yields a state satisfying
the invariant whenever it completes, and the HTTP-429 / unexpected-error
refund `tokens = min(max_tokens, tokens + 1)` preserves it as well. -/
theorem token_bucket_invariant (b : Bucket) (hrate : 0 ≤ b.refill_rate) (hinv : b.Inv) :
    (∀ now : ℚ, b.last_refill ≤ now → (b.refill now).Inv)
    ∧ b.refund.Inv
    ∧ (∀ (clocks : List ℚ), List.Chain (· ≤ ·) b.last_refill clocks →
        ∀ b', b.waitForToken clocks = some b' → b'.Inv) := by
  obtain ⟨h0, hmax⟩ := hinv
  refine ⟨fun now hnow => Bucket.refill_inv hrate ⟨h0, hmax⟩ hnow, ?_, ?_⟩
  · exact ⟨by simp [Bucket.refund]; constructor <;> linarith, by simp [Bucket.refund]⟩
  · exact fun clocks hchain b' h =>
      Bucket.waitForToken_inv clocks b hrate ⟨h0, hmax⟩ hchain b' h

/-- Witness for C10: a bucket with 2 tokens, rate 1, polled at time 1. -/
theorem token_bucket_invariant_witness :
    (0 : ℚ) ≤ 1 ∧ Bucket.Inv ⟨2, 1, 2, 0⟩ ∧
    (Bucket.refill ⟨2, 1, 2, 0⟩ 5).Inv ∧ (Bucket.refund ⟨2, 1, 2, 0⟩).Inv := by
  have h := token_bucket_invariant ⟨2, 1, 2, 0⟩ (by norm_num)
    ⟨by norm_num, by norm_num⟩
  exact ⟨by norm_num, ⟨by norm_num, by norm_num⟩, h.1 5 (by norm_num), h.2.1⟩

/-- In the retry loop itself no token is ever acquired (only refunds occur). -/
lemma attemptLoop_no_acquire :
    ∀ (outcomes : List AttemptOutcome) (maxRetries attempt : Nat),
      (attemptLoop maxRetries attempt outcomes).ops.count BucketOp.acquire = 0
  | [], _, _ => by simp [attemptLoop]
  | o :: rest, maxRetries, attempt => by
    have ih := attemptLoop_no_acquire rest maxRetries (attempt + 1)
    rcases o with ⟨code, jsonOk⟩ | _ | _ | _ <;>
      simp only [attemptLoop] <;>
      (try split_ifs) <;>
      simp_all [List.count_append, List.count_cons, List.count_nil]

/-- C6 (amended). `make_api_request` acquires exactly one rate-limit token
per call — `wait_for_token` is awaited once, before the retry loop — no
matter how many attempts the loop performs; retries acquire no further
tokens. -/
theorem make_api_request_single_acquire (maxRetries : Nat) (outcomes : List AttemptOutcome) :
    (make_api_request_trace maxRetries outcomes).ops.count BucketOp.acquire = 1 := by
  simp [make_api_request_trace, List.count_cons, attemptLoop_no_acquire]

/-- Counterexample to C6 as stated: with the default configuration, a server
error followed by a success performs 2 attempts yet only 1 token is ever
acquired — the attempts after the first do not begin by acquiring a token. -/
theorem make_api_request_per_attempt_acquire_counterexample :
    (make_api_request_trace MAX_RETRIES
        [.httpStatus 500 true, .httpStatus 200 true]).attempts = 2
    ∧ (make_api_request_trace MAX_RETRIES
        [.httpStatus 500 true, .httpStatus 200 true]).ops.count BucketOp.acquire = 1
    ∧ (make_api_request_trace MAX_RETRIES
        [.httpStatus 500 true, .httpStatus 200 true]).ops.count BucketOp.acquire
      ≠ (make_api_request_trace MAX_RETRIES
        [.httpStatus 500 true, .httpStatus 200 true]).attempts := by
  refine ⟨?_, ?_, ?_⟩ <;> decide

/-- C2. The response's `temperature.value` is `null` exactly when no
successful provider returned a temperature; otherwise it is the median of
the non-null temperature readings rounded to 1 decimal, where the median of
the ascending sorted readings is the middle value for an odd count and the
average of the two middle values for an even count. -/
theorem aggregated_temperature_is_median (loc ts : String) (srcs : List SourceInfo)
    (wd : List ProviderData) :
    ((_build_response loc wd srcs ts).temperature.value = none ↔ tempsOf wd = [])
    ∧ (tempsOf wd ≠ [] →
        (_build_response loc wd srcs ts).temperature.value
          = some (round1 (pyMedian (tempsOf wd))))
    ∧ List.Sorted (· ≤ ·) (sortAsc (tempsOf wd))
    ∧ List.Perm (sortAsc (tempsOf wd)) (tempsOf wd)
    ∧ (∀ i : Nat, (sortAsc (tempsOf wd)).length = 2 * i + 1 →
        pyMedian (tempsOf wd) = (sortAsc (tempsOf wd)).getD i 0)
    ∧ (∀ i : Nat, 0 < i → (sortAsc (tempsOf wd)).length = 2 * i →
        pyMedian (tempsOf wd)
          = ((sortAsc (tempsOf wd)).getD (i - 1) 0 + (sortAsc (tempsOf wd)).getD i 0) / 2) := by
  refine ⟨?_, ?_, ?_, ?_, ?_, ?_⟩
  · by_cases h : (tempsOf wd).isEmpty <;>
      simp_all [_build_response, List.isEmpty_iff]
  · intro h
    have h' : ¬(tempsOf wd).isEmpty := by simpa [List.isEmpty_iff] using h
    simp [_build_response, h']
  · exact List.sorted_insertionSort _ _
  · exact List.perm_insertionSort _ _
  · intro i hi
    have hmod : (sortAsc (tempsOf wd)).length % 2 = 1 := by omega
    have hdiv : (sortAsc (tempsOf wd)).length / 2 = i := by omega
    simp [pyMedian, sortAsc] at hmod hdiv ⊢
    simp [hmod, hdiv]
  · intro i hpos hi
    have hmod : (sortAsc (tempsOf wd)).length % 2 = 0 := by omega
    have hdiv : (sortAsc (tempsOf wd)).length / 2 = i := by omega
    simp [pyMedian, sortAsc] at hmod hdiv ⊢
    simp [hmod, hdiv]

/-- Witness for C2: three readings 27, 29, 28 give median 28 (the middle of
the sorted list, at index 1). -/
theorem aggregated_temperature_is_median_witness :
    tempsOf
        [⟨some "A", some 27, some 75, some "Clear", ⟨"OpenWeatherMap", "success", 100⟩⟩,
         ⟨none, some 29, some 78, some "Clear", ⟨"WeatherAPI", "success", 90⟩⟩,
         ⟨none, some 28, none, some "Overcast", ⟨"OpenMeteo", "success", 80⟩⟩] ≠ []
    ∧ (_build_response "Singapore"
        [⟨some "A", some 27, some 75, some "Clear", ⟨"OpenWeatherMap", "success", 100⟩⟩,
         ⟨none, some 29, some 78, some "Clear", ⟨"WeatherAPI", "success", 90⟩⟩,
         ⟨none, some 28, none, some "Overcast", ⟨"OpenMeteo", "success", 80⟩⟩]
        [] "t").temperature.value = some 28
    ∧ pyMedian (tempsOf
        [⟨some "A", some 27, some 75, some "Clear", ⟨"OpenWeatherMap", "success", 100⟩⟩,
         ⟨none, some 29, some 78, some "Clear", ⟨"WeatherAPI", "success", 90⟩⟩,
         ⟨none, some 28, none, some "Overcast", ⟨"OpenMeteo", "success", 80⟩⟩])
      = (sortAsc (tempsOf
        [⟨some "A", some 27, some 75, some "Clear", ⟨"OpenWeatherMap", "success", 100⟩⟩,
         ⟨none, some 29, some 78, some "Clear", ⟨"WeatherAPI", "success", 90⟩⟩,
         ⟨none, some 28, none, some "Overcast", ⟨"OpenMeteo", "success", 80⟩⟩])).getD 1 0 := by
  refine ⟨by decide, ?_, ?_⟩
  · rw [(aggregated_temperature_is_median "Singapore" "t" []
      [⟨some "A", some 27, some 75, some "Clear", ⟨"OpenWeatherMap", "success", 100⟩⟩,
       ⟨none, some 29, some 78, some "Clear", ⟨"WeatherAPI", "success", 90⟩⟩,
       ⟨none, some 28, none, some "Overcast", ⟨"OpenMeteo", "success", 80⟩⟩]).2.1 (by decide),
      show pyMedian (tempsOf
        [⟨some "A", some 27, some 75, some "Clear", ⟨"OpenWeatherMap", "success", 100⟩⟩,
         ⟨none, some 29, some 78, some "Clear", ⟨"WeatherAPI", "success", 90⟩⟩,
         ⟨none, some 28, none, some "Overcast", ⟨"OpenMeteo", "success", 80⟩⟩]) = 28 by decide]
    norm_num [round1, roundHalfEven]
  · exact (aggregated_temperature_is_median "Singapore" "t" []
      [⟨some "A", some 27, some 75, some "Clear", ⟨"OpenWeatherMap", "success", 100⟩⟩,
       ⟨none, some 29, some 78, some "Clear", ⟨"WeatherAPI", "success", 90⟩⟩,
       ⟨none, some 28, none, some "Overcast", ⟨"OpenMeteo", "success", 80⟩⟩]).2.2.2.2.1 1
      (by decide)

/-- C3. The response's `humidity` is the arithmetic mean of the non-null
humidity readings rounded to 1 decimal — null readings are excluded from
both the sum and the count — and is `null` exactly when no non-null humidity
reading exists. -/
theorem aggregated_humidity_is_mean (loc ts : String) (srcs : List SourceInfo)
    (wd : List ProviderData) :
    ((_build_response loc wd srcs ts).humidity = none ↔ humsOf wd = [])
    ∧ (humsOf wd ≠ [] →
        (_build_response loc wd srcs ts).humidity
          = some (round1 ((humsOf wd).sum / ((humsOf wd).length : ℚ)))) := by
  constructor
  · by_cases h : (humsOf wd).isEmpty <;>
      simp_all [_build_response, List.isEmpty_iff]
  · intro h
    have h' : ¬(humsOf wd).isEmpty := by simpa [List.isEmpty_iff] using h
    simp [_build_response, h']

/-- Witness for C3: humidity readings `[75, null, 78]` average to 76.5
(mean of the two non-null readings), not 51 (which including the null as a
third data point would give). -/
theorem aggregated_humidity_is_mean_witness :
    humsOf
        [⟨some "A", some 27, some 75, some "Clear", ⟨"OpenWeatherMap", "success", 100⟩⟩,
         ⟨none, some 29, none, some "Clear", ⟨"WeatherAPI", "success", 90⟩⟩,
         ⟨none, some 28, some 78, some "Overcast", ⟨"OpenMeteo", "success", 80⟩⟩] ≠ []
    ∧ (_build_response "Singapore"
        [⟨some "A", some 27, some 75, some "Clear", ⟨"OpenWeatherMap", "success", 100⟩⟩,
         ⟨none, some 29, none, some "Clear", ⟨"WeatherAPI", "success", 90⟩⟩,
         ⟨none, some 28, some 78, some "Overcast", ⟨"OpenMeteo", "success", 80⟩⟩]
        [] "t").humidity = some (153 / 2)
    ∧ (153 : ℚ) / 2 ≠ 51 := by
  refine ⟨by decide, ?_, by norm_num⟩
  rw [(aggregated_humidity_is_mean "Singapore" "t" []
    [⟨some "A", some 27, some 75, some "Clear", ⟨"OpenWeatherMap", "success", 100⟩⟩,
     ⟨none, some 29, none, some "Clear", ⟨"WeatherAPI", "success", 90⟩⟩,
     ⟨none, some 28, some 78, some "Overcast", ⟨"OpenMeteo", "success", 80⟩⟩]).2 (by decide),
    show humsOf
      [⟨some "A", some 27, some 75, some "Clear", ⟨"OpenWeatherMap", "success", 100⟩⟩,
       ⟨none, some 29, none, some "Clear", ⟨"WeatherAPI", "success", 90⟩⟩,
       ⟨none, some 28, some 78, some "Overcast", ⟨"OpenMeteo", "success", 80⟩⟩] = [75, 78] by decide]
  norm_num [round1, roundHalfEven]

/-- The data half of `_process_results` is exactly the successful providers'
data. -/
lemma process_results_fst :
    ∀ pairs : List (String × FetchOutcome),
      (_process_results pairs).1 = successfulData (pairs.map Prod.snd)
  | [] => by simp [_process_results, successfulData]
  | (provider, outcome) :: rest => by
    have ih := process_results_fst rest
    rcases outcome with _ | _ | d <;>
      simp only [_process_results, successfulData, List.map_cons, List.filterMap_cons] <;>
      (try split_ifs) <;>
      simp_all [successfulData]

/-- `successfulData` is empty exactly when no fetch produced a result whose
source status is `"success"`. -/
lemma successfulData_eq_nil_iff :
    ∀ results : List FetchOutcome,
      successfulData results = [] ↔ ∀ o ∈ results, producedSuccess o = false
  | [] => by simp [successfulData]
  | o :: rest => by
    have ih := successfulData_eq_nil_iff rest
    rcases o with _ | _ | d <;>
      simp only [successfulData, List.filterMap_cons] <;>
      (try split_ifs) <;>
      simp_all [successfulData, producedSuccess]

/-- C1. On the validated, cache-missing, keys-configured path,
`get_aggregated_weather` raises `ProviderError` if and only if none of the
three provider fetches produced a result whose source status is
`"success"`; when at least one did, it returns the envelope built from
exactly the successful providers' data (with every provider's source
record). -/
theorem provider_error_iff_no_success (location ts : String)
    (cache : String → Option Response) (o₁ o₂ o₃ : FetchOutcome)
    (hval : validate_input_format (pyStrip location) = .ok ())
    (hmiss : cache (_normalize_key (pyStrip location)) = none) :
    (get_aggregated_weather location cache true [o₁, o₂, o₃] ts = .error .provider
      ↔ producedSuccess o₁ = false ∧ producedSuccess o₂ = false ∧ producedSuccess o₃ = false)
    ∧ ((producedSuccess o₁ = true ∨ producedSuccess o₂ = true ∨ producedSuccess o₃ = true) →
        get_aggregated_weather location cache true [o₁, o₂, o₃] ts
          = .ok (_build_response (pyStrip location) (successfulData [o₁, o₂, o₃])
              (_process_results (PROVIDER_NAMES.zip [o₁, o₂, o₃])).2 ts)) := by
  have hfst : (_process_results (PROVIDER_NAMES.zip [o₁, o₂, o₃])).1
      = successfulData [o₁, o₂, o₃] := by
    rw [process_results_fst]
    simp [PROVIDER_NAMES]
  have hnil := successfulData_eq_nil_iff [o₁, o₂, o₃]
  constructor
  · by_cases hemp : (successfulData [o₁, o₂, o₃]).isEmpty
    · have hn : successfulData [o₁, o₂, o₃] = [] := by simpa [List.isEmpty_iff] using hemp
      have hall := hnil.mp hn
      simp only [get_aggregated_weather, hval, hmiss, hfst, hemp]
      constructor
      · intro _
        exact ⟨hall o₁ (by simp), hall o₂ (by simp), hall o₃ (by simp)⟩
      · intro _
        simp
    · simp only [get_aggregated_weather, hval, hmiss, hfst, hemp]
      have hne : successfulData [o₁, o₂, o₃] ≠ [] := by
        simpa [List.isEmpty_iff] using hemp
      constructor
      · intro h
        simp at h
      · intro ⟨ha, hb, hc⟩
        exact absurd (hnil.mpr (by intro o ho; simp at ho; rcases ho with h | h | h <;> simp [h, ha, hb, hc])) hne
  · intro hsucc
    have hne : successfulData [o₁, o₂, o₃] ≠ [] := by
      intro h
      have := hnil.mp h
      rcases hsucc with h' | h' | h' <;>
        [exact absurd (this o₁ (by simp)) (by simp [h']);
         exact absurd (this o₂ (by simp)) (by simp [h']);
         exact absurd (this o₃ (by simp)) (by simp [h'])]
    have hemp : (successfulData [o₁, o₂, o₃]).isEmpty = false := by
      simpa [List.isEmpty_iff] using hne
    simp only [get_aggregated_weather, hval, hmiss, hfst, hemp]
    simp

/-- Witness for C1: one success, one exception, one `None` yields the
best-effort envelope built from the single successful provider. -/
theorem provider_error_iff_no_success_witness :
    validate_input_format (pyStrip "Paris") = .ok ()
    ∧ producedSuccess (.ok ⟨some "Paris", some 20, some 60, some "Clear",
        ⟨"OpenWeatherMap", "success", 10⟩⟩) = true
    ∧ get_aggregated_weather "Paris" (fun _ => none) true
        [.ok ⟨some "Paris", some 20, some 60, some "Clear", ⟨"OpenWeatherMap", "success", 10⟩⟩,
         .exn, .nullResult] "t"
      = .ok (_build_response (pyStrip "Paris")
          (successfulData
            [.ok ⟨some "Paris", some 20, some 60, some "Clear", ⟨"OpenWeatherMap", "success", 10⟩⟩,
             .exn, .nullResult])
          (_process_results (PROVIDER_NAMES.zip
            [.ok ⟨some "Paris", some 20, some 60, some "Clear", ⟨"OpenWeatherMap", "success", 10⟩⟩,
             .exn, .nullResult])).2 "t") :=
  ⟨by decide, by decide,
    (provider_error_iff_no_success "Paris" "t" (fun _ => none)
      (.ok ⟨some "Paris", some 20, some 60, some "Clear", ⟨"OpenWeatherMap", "success", 10⟩⟩)
      .exn .nullResult (by decide) rfl).2 (Or.inl (by decide))⟩

/-- The source-record half of `_process_results` carries one record per
provider position, labelled with that provider's name, whatever the
outcome — provided successful results are stamped with their own provider's
name, as every adapter does. -/
lemma process_results_snd_providers :
    ∀ pairs : List (String × FetchOutcome),
      (∀ p ∈ pairs, ∀ d, p.2 = FetchOutcome.ok d → d.source.provider = p.1) →
      (_process_results pairs).2.map (fun s => s.provider) = pairs.map Prod.fst
  | [], _ => by simp [_process_results]
  | (provider, outcome) :: rest, h => by
    have ih := process_results_snd_providers rest (fun p hp => h p (by simp [hp]))
    have hhead := h (provider, outcome) (by simp)
    rcases outcome with _ | _ | d <;>
      simp only [_process_results, List.map_cons] <;>
      (try split_ifs) <;>
      simp_all

/-- C9. Every envelope returned by a successful aggregation lists exactly
one source record per provider — OpenWeatherMap, WeatherAPI and OpenMeteo,
in order — whether that provider succeeded, returned a failure marker,
returned nothing (`None`) or raised an exception. -/
theorem sources_list_every_provider (location ts : String)
    (cache : String → Option Response) (o₁ o₂ o₃ : FetchOutcome)
    (hval : validate_input_format (pyStrip location) = .ok ())
    (hmiss : cache (_normalize_key (pyStrip location)) = none)
    (h₁ : ∀ d, o₁ = FetchOutcome.ok d → d.source.provider = "OpenWeatherMap")
    (h₂ : ∀ d, o₂ = FetchOutcome.ok d → d.source.provider = "WeatherAPI")
    (h₃ : ∀ d, o₃ = FetchOutcome.ok d → d.source.provider = "OpenMeteo") :
    ∀ resp : Response,
      get_aggregated_weather location cache true [o₁, o₂, o₃] ts = .ok resp →
      resp.sources.map (fun s => s.provider) = PROVIDER_NAMES
      ∧ resp.sources.length = 3 := by
  intro resp hresp
  have hmap : (_process_results (PROVIDER_NAMES.zip [o₁, o₂, o₃])).2.map (fun s => s.provider)
      = PROVIDER_NAMES := by
    rw [process_results_snd_providers]
    · simp [PROVIDER_NAMES]
    · intro p hp d hd
      simp only [PROVIDER_NAMES, List.zip, List.zipWith, List.mem_cons] at hp
      rcases hp with h | h | h | h <;> simp_all
  have hsrc : resp.sources = (_process_results (PROVIDER_NAMES.zip [o₁, o₂, o₃])).2 := by
    simp only [get_aggregated_weather, hval, hmiss] at hresp
    by_cases hemp : (_process_results (PROVIDER_NAMES.zip [o₁, o₂, o₃])).1.isEmpty = true
    · rw [if_pos hemp] at hresp
      exact Except.noConfusion hresp
    · rw [if_neg hemp] at hresp
      rw [← Except.ok.inj hresp]
      simp [_build_response]
  have hlen : resp.sources.length = 3 := by
    have := congrArg List.length (hsrc ▸ hmap)
    simpa [PROVIDER_NAMES] using this
  exact ⟨hsrc ▸ hmap, hlen⟩

/-- Witness for C9: a success, a failure marker and an exception still
produce one record per provider. -/
theorem sources_list_every_provider_witness :
    (get_aggregated_weather "Paris" (fun _ => none) true
        [.ok ⟨some "Paris", some 20, some 60, some "Clear", ⟨"OpenWeatherMap", "success", 10⟩⟩,
         .ok ⟨none, none, none, none, ⟨"WeatherAPI", "failure", 5⟩⟩,
         .exn] "t"
      = .ok (_build_response (pyStrip "Paris")
          (_process_results (PROVIDER_NAMES.zip
            [.ok ⟨some "Paris", some 20, some 60, some "Clear", ⟨"OpenWeatherMap", "success", 10⟩⟩,
             .ok ⟨none, none, none, none, ⟨"WeatherAPI", "failure", 5⟩⟩, .exn])).1
          (_process_results (PROVIDER_NAMES.zip
            [.ok ⟨some "Paris", some 20, some 60, some "Clear", ⟨"OpenWeatherMap", "success", 10⟩⟩,
             .ok ⟨none, none, none, none, ⟨"WeatherAPI", "failure", 5⟩⟩, .exn])).2 "t"))
    ∧ (_build_response (pyStrip "Paris")
          (_process_results (PROVIDER_NAMES.zip
            [.ok ⟨some "Paris", some 20, some 60, some "Clear", ⟨"OpenWeatherMap", "success", 10⟩⟩,
             .ok ⟨none, none, none, none, ⟨"WeatherAPI", "failure", 5⟩⟩, .exn])).1
          (_process_results (PROVIDER_NAMES.zip
            [.ok ⟨some "Paris", some 20, some 60, some "Clear", ⟨"OpenWeatherMap", "success", 10⟩⟩,
             .ok ⟨none, none, none, none, ⟨"WeatherAPI", "failure", 5⟩⟩, .exn])).2
          "t").sources.map (fun s => s.provider) = PROVIDER_NAMES := by
  have hget : get_aggregated_weather "Paris" (fun _ => none) true
      [.ok ⟨some "Paris", some 20, some 60, some "Clear", ⟨"OpenWeatherMap", "success", 10⟩⟩,
       .ok ⟨none, none, none, none, ⟨"WeatherAPI", "failure", 5⟩⟩, .exn] "t"
      = .ok (_build_response (pyStrip "Paris")
          (_process_results (PROVIDER_NAMES.zip
            [.ok ⟨some "Paris", some 20, some 60, some "Clear", ⟨"OpenWeatherMap", "success", 10⟩⟩,
             .ok ⟨none, none, none, none, ⟨"WeatherAPI", "failure", 5⟩⟩, .exn])).1
          (_process_results (PROVIDER_NAMES.zip
            [.ok ⟨some "Paris", some 20, some 60, some "Clear", ⟨"OpenWeatherMap", "success", 10⟩⟩,
             .ok ⟨none, none, none, none, ⟨"WeatherAPI", "failure", 5⟩⟩, .exn])).2 "t") := rfl
  refine ⟨hget, ?_⟩
  exact ((sources_list_every_provider "Paris" "t" (fun _ => none) _ _ _
      (by decide) rfl
      (by intro d hd; cases hd; rfl)
      (by intro d hd; cases hd; rfl)
      (by intro d hd; cases hd)) _ hget).1

/-! ### String-level helper lemmas -/

/-- `dropWhile` is idempotent. -/
lemma dropWhile_self (p : Char → Bool) (l : List Char) :
    (l.dropWhile p).dropWhile p = l.dropWhile p := by
  induction l with
  | nil => simp
  | cons c t ih =>
    by_cases hp : p c
    · simpa [List.dropWhile_cons, hp] using ih
    · simp [List.dropWhile_cons, hp]

/-- `dropWhile` never lengthens a list. -/
lemma dropWhile_length_le (p : Char → Bool) (l : List Char) :
    (l.dropWhile p).length ≤ l.length := by
  induction l with
  | nil => simp
  | cons c t ih =>
    by_cases hp : p c
    · simp [List.dropWhile_cons, hp]
      omega
    · simp [List.dropWhile_cons, hp]

/-- A prefix of a `dropWhile p`-fixed list is itself `dropWhile p`-fixed. -/
lemma dropWhile_eq_self_of_append {p : Char → Bool} {s r : List Char}
    (h : (s ++ r).dropWhile p = s ++ r) : s.dropWhile p = s := by
  cases s with
  | nil => simp
  | cons c s' =>
    by_cases hp : p c
    · exfalso
      have hlen := congrArg List.length h
      have hle := dropWhile_length_le p (s' ++ r)
      simp [List.dropWhile_cons, hp] at hlen
      simp at hle
      omega
    · simp [List.dropWhile_cons, hp]

/-- Stripping is idempotent (`s.strip().strip() == s.strip()`). -/
lemma stripList_idem (cs : List Char) : stripList (stripList cs) = stripList cs := by
  unfold stripList
  have hl1 : (cs.dropWhile isPySpace).dropWhile isPySpace = cs.dropWhile isPySpace :=
    dropWhile_self _ _
  have hd : (((cs.dropWhile isPySpace).reverse.dropWhile isPySpace).dropWhile isPySpace)
      = (cs.dropWhile isPySpace).reverse.dropWhile isPySpace :=
    dropWhile_self _ _
  have hsplit : cs.dropWhile isPySpace
      = ((cs.dropWhile isPySpace).reverse.dropWhile isPySpace).reverse
        ++ ((cs.dropWhile isPySpace).reverse.takeWhile isPySpace).reverse := by
    conv_lhs => rw [← List.reverse_reverse (cs.dropWhile isPySpace),
      ← List.takeWhile_append_dropWhile (p := isPySpace)
        (l := (cs.dropWhile isPySpace).reverse)]
    rw [List.reverse_append]
  have hs : (((cs.dropWhile isPySpace).reverse.dropWhile isPySpace).reverse).dropWhile isPySpace
      = ((cs.dropWhile isPySpace).reverse.dropWhile isPySpace).reverse := by
    apply dropWhile_eq_self_of_append
      (r := ((cs.dropWhile isPySpace).reverse.takeWhile isPySpace).reverse)
    rw [← hsplit]
    exact hl1
  rw [hs, List.reverse_reverse, hd]

/-- `splitComma` yields one more part than there are commas. -/
lemma splitComma_length (cs : List Char) :
    (splitComma cs).length = commaCountL cs + 1 := by
  induction cs with
  | nil => simp [splitComma, commaCountL]
  | cons c t ih =>
    by_cases hc : c = ','
    · simp [splitComma, hc, commaCountL, List.count_cons] at ih ⊢
      omega
    · rcases hn : splitComma t with _ | ⟨h1, t1⟩
      · rw [hn] at ih
        simp at ih
      · simp [splitComma, hc, commaCountL, List.count_cons, hn] at ih ⊢
        omega

/-- `optionMapAll` preserves length when it succeeds. -/
lemma length_of_optionMapAll {α β : Type} {f : α → Option β} :
    ∀ {l : List α} {l' : List β}, optionMapAll f l = some l' → l'.length = l.length
  | [], l', h => by
    simp [optionMapAll] at h
    simp [← h]
  | a :: t, l', h => by
    rcases ha : f a with _ | b <;> rcases ht : optionMapAll f t with _ | t' <;>
      simp [optionMapAll, ha, ht] at h
    have := length_of_optionMapAll (l := t) ht
    simp [← h, this]

/-- C7. `_normalize_key` trims whitespace, lowercases, and re-renders any
value that parses as two comma-separated floats to 4 decimal places: two
coordinate strings whose parsed latitude pairs and longitude pairs have the
same 4-decimal rendering — in particular strings differing only in
whitespace or in precision beyond 4 decimals — collide to the same cache
key. -/
theorem cache_key_collision (s₁ s₂ : String) (a₁ b₁ a₂ b₂ : ℚ)
    (h₁ : optionMapAll pyParseFloatL
        (splitComma ((stripList s₁.data).map Char.toLower)) = some [a₁, b₁])
    (h₂ : optionMapAll pyParseFloatL
        (splitComma ((stripList s₂.data).map Char.toLower)) = some [a₂, b₂])
    (ha : fmt4 a₁ = fmt4 a₂) (hb : fmt4 b₁ = fmt4 b₂) :
    _normalize_key s₁ = _normalize_key s₂ := by
  have contains_of : ∀ (s : String) (a b : ℚ),
      optionMapAll pyParseFloatL
        (splitComma ((stripList s.data).map Char.toLower)) = some [a, b] →
      ((stripList s.data).map Char.toLower).contains ',' = true := by
    intro s a b h
    have hlen := length_of_optionMapAll h
    rw [splitComma_length] at hlen
    have hcc : commaCountL ((stripList s.data).map Char.toLower) = 1 := by
      simp at hlen
      omega
    have hmem : ',' ∈ (stripList s.data).map Char.toLower := by
      rw [← List.count_pos_iff]
      unfold commaCountL at hcc
      omega
    exact List.elem_eq_true_of_mem hmem
  simp only [_normalize_key]
  rw [contains_of s₁ a₁ b₁ h₁, contains_of s₂ a₂ b₂ h₂]
  simp only [if_true, h₁, h₂]
  simp [ha, hb]

/-- Witness for C7: the spec's example pair `"1.295551,103.850001"` and
`"  1.2956, 103.8500 "` produce the same key. -/
theorem cache_key_collision_witness :
    optionMapAll pyParseFloatL
        (splitComma ((stripList "1.295551,103.850001".data).map Char.toLower))
      = some [1295551 / 1000000, 103850001 / 1000000]
    ∧ fmt4 ((1295551 : ℚ) / 1000000) = "1.2956"
    ∧ _normalize_key "1.295551,103.850001" = _normalize_key "  1.2956, 103.8500 " := by
  have hs₁ : splitComma ((stripList "1.295551,103.850001".data).map Char.toLower)
      = ["1.295551".data, "103.850001".data] := by decide
  have hs₂ : splitComma ((stripList "  1.2956, 103.8500 ".data).map Char.toLower)
      = ["1.2956".data, " 103.8500".data] := by decide
  have p₁ : pyFloatParts "1.295551".data = some ⟨false, 1, 295551, 6, 0⟩ := by decide
  have p₂ : pyFloatParts "103.850001".data = some ⟨false, 103, 850001, 6, 0⟩ := by decide
  have p₃ : pyFloatParts "1.2956".data = some ⟨false, 1, 2956, 4, 0⟩ := by decide
  have p₄ : pyFloatParts " 103.8500".data = some ⟨false, 103, 8500, 4, 0⟩ := by decide
  have h₁ : optionMapAll pyParseFloatL
      (splitComma ((stripList "1.295551,103.850001".data).map Char.toLower))
      = some [1295551 / 1000000, 103850001 / 1000000] := by
    rw [hs₁]
    simp only [optionMapAll, pyParseFloatL, p₁, p₂, Option.map_some]
    norm_num [FloatParts.toRat]
  have h₂ : optionMapAll pyParseFloatL
      (splitComma ((stripList "  1.2956, 103.8500 ".data).map Char.toLower))
      = some [12956 / 10000, 1038500 / 10000] := by
    rw [hs₂]
    simp only [optionMapAll, pyParseFloatL, p₃, p₄, Option.map_some]
    norm_num [FloatParts.toRat]
  have f₁ : fmt4 ((1295551 : ℚ) / 1000000) = "1.2956" := by
    have hr : roundHalfEven ((1295551 : ℚ) / 1000000 * 10000) = 12956 := by
      norm_num [roundHalfEven]
    simp only [fmt4, hr]
    rw [if_neg (by norm_num)]
    decide
  have f₂ : fmt4 ((12956 : ℚ) / 10000) = "1.2956" := by
    have hr : roundHalfEven ((12956 : ℚ) / 10000 * 10000) = 12956 := by
      norm_num [roundHalfEven]
    simp only [fmt4, hr]
    rw [if_neg (by norm_num)]
    decide
  have f₃ : fmt4 ((103850001 : ℚ) / 1000000) = "103.8500" := by
    have hr : roundHalfEven ((103850001 : ℚ) / 1000000 * 10000) = 1038500 := by
      norm_num [roundHalfEven]
    simp only [fmt4, hr]
    rw [if_neg (by norm_num)]
    decide
  have f₄ : fmt4 ((1038500 : ℚ) / 10000) = "103.8500" := by
    have hr : roundHalfEven ((1038500 : ℚ) / 10000 * 10000) = 1038500 := by
      norm_num [roundHalfEven]
    simp only [fmt4, hr]
    rw [if_neg (by norm_num)]
    decide
  exact ⟨h₁, f₁,
    cache_key_collision "1.295551,103.850001" "  1.2956, 103.8500 " _ _ _ _ h₁ h₂
      (f₁.trans f₂.symm) (f₃.trans f₄.symm)⟩

/-- Counterexample to C5 as stated: `".5,.5"` has exactly one comma and both
tokens parse as floats (`float(".5") == 0.5`, in range), yet
`validate_input_format` rejects it with the generic message
`"Invalid coordinate format"` — the regex pre-check requires digits before
the decimal point, so the claim's acceptance condition does not hold for
every float-parseable token pair. -/
theorem coordinate_validation_counterexample :
    commaCount (pyStrip ".5,.5") = 1
    ∧ pyParseFloat ".5" = some (1 / 2)
    ∧ ((-90 : ℚ) ≤ 1 / 2 ∧ (1 / 2 : ℚ) ≤ 90)
    ∧ validate_input_format ".5,.5" = .error .invalidCoordFormat
    ∧ validate_input_format ".5,.5" ≠ .ok () := by
  refine ⟨by decide, ?_, by norm_num, by decide, by decide⟩
  have hp : pyFloatParts ".5".data = some ⟨false, 0, 5, 1, 0⟩ := by decide
  simp only [pyParseFloat, pyParseFloatL, hp, Option.map_some]
  norm_num [FloatParts.toRat]

/-- `parse_coordinates` on a stripped one-comma string whose two tokens
parse as floats reduces to the latitude check, then the longitude check. -/
lemma parse_coordinates_eval (s : List Char) (lat lon : ℚ)
    (hstrip : stripList s = s)
    (hcc : commaCountL s = 1)
    (hlat : pyParseFloatL ((splitComma s).getD 0 []) = some lat)
    (hlon : pyParseFloatL ((splitComma s).getD 1 []) = some lon) :
    parse_coordinates ⟨s⟩
      = if ¬(-90 ≤ lat ∧ lat ≤ 90) then .error (.latOutOfRange lat)
        else if ¬(-180 ≤ lon ∧ lon ≤ 180) then .error (.lonOutOfRange lon)
        else .ok (lat, lon) := by
  obtain ⟨t₀, t₁, hts⟩ := List.length_eq_two.mp (by rw [splitComma_length, hcc])
  rw [hts] at hlat hlon
  simp only [List.getD_cons_zero, List.getD_cons_succ] at hlat hlon
  have hne : s.isEmpty = false := by
    rcases hsl : s with _ | ⟨c, t⟩
    · rw [hsl] at hcc
      simp [commaCountL] at hcc
    · simp
  simp only [parse_coordinates, hstrip, hne, hcc, hts]
  simp [hlat, hlon]

/-- C5 (amended). For every input string whose trimmed form matches the
coordinate regex `-?\d+(\.\d+)?,-?\d+(\.\d+)?` (hence has exactly one comma
and two float-parseable tokens, with values `lat` and `lon`),
`validate_input_format` accepts iff `lat ∈ [-90,90]` and `lon ∈ [-180,180]`,
raises the `ValidationError` naming the latitude field and its bound when
`lat` is out of range, and the one naming the longitude field and its bound
when `lat` is in range but `lon` is not.  Tokens that `float()` accepts but
the regex rejects (such as `".5"`, `"1."`, `"+1"`, `"1e3"`) are instead
rejected wholesale with `"Invalid coordinate format"`. -/
theorem coordinate_validation_ranges (loc : String) (lat lon : ℚ)
    (hre : is_coordinates loc = true)
    (hlat : pyParseFloatL ((splitComma (stripList loc.data)).getD 0 []) = some lat)
    (hlon : pyParseFloatL ((splitComma (stripList loc.data)).getD 1 []) = some lon) :
    (validate_input_format loc = .ok ()
      ↔ ((-90 ≤ lat ∧ lat ≤ 90) ∧ (-180 ≤ lon ∧ lon ≤ 180)))
    ∧ (¬(-90 ≤ lat ∧ lat ≤ 90) →
        validate_input_format loc = .error (.latOutOfRange lat))
    ∧ ((-90 ≤ lat ∧ lat ≤ 90) → ¬(-180 ≤ lon ∧ lon ≤ 180) →
        validate_input_format loc = .error (.lonOutOfRange lon)) := by
  have hidem := stripList_idem loc.data
  have hre' := hre
  simp only [is_coordinates, Bool.and_eq_true, decide_eq_true_eq] at hre'
  obtain ⟨hcc, hrx⟩ := hre'
  have hne : (stripList loc.data).isEmpty = false := by
    rcases hsl : stripList loc.data with _ | ⟨c, t⟩
    · rw [hsl] at hcc
      simp [commaCountL] at hcc
    · simp
  have hco : is_coordinates (⟨stripList loc.data⟩ : String) = true := by
    simp [is_coordinates, hidem, hcc, hrx]
  have hpc := parse_coordinates_eval (stripList loc.data) lat lon hidem hcc hlat hlon
  have heval : validate_input_format loc
      = if ¬(-90 ≤ lat ∧ lat ≤ 90) then .error (.latOutOfRange lat)
        else if ¬(-180 ≤ lon ∧ lon ≤ 180) then .error (.lonOutOfRange lon)
        else .ok () := by
    have hmap : validate_input_format loc
        = Except.map (fun _ => ()) (parse_coordinates ⟨stripList loc.data⟩) := by
      simp only [validate_input_format]
      simp only [hne, hcc, hco]
      norm_num
    rw [hmap, hpc]
    by_cases h1 : (-90 ≤ lat ∧ lat ≤ 90)
    · by_cases h2 : (-180 ≤ lon ∧ lon ≤ 180)
      · rw [if_neg (not_not_intro h1), if_neg (not_not_intro h2),
          if_neg (not_not_intro h1), if_neg (not_not_intro h2)]
        rfl
      · rw [if_neg (not_not_intro h1), if_pos h2, if_neg (not_not_intro h1), if_pos h2]
        rfl
    · rw [if_pos h1, if_pos h1]
      rfl
  rw [heval]
  by_cases h1 : (-90 ≤ lat ∧ lat ≤ 90)
  · by_cases h2 : (-180 ≤ lon ∧ lon ≤ 180)
    · rw [if_neg (not_not_intro h1), if_neg (not_not_intro h2)]
      exact ⟨⟨fun _ => ⟨h1, h2⟩, fun _ => rfl⟩, fun h => absurd h1 h, fun _ h => absurd h2 h⟩
    · rw [if_neg (not_not_intro h1), if_pos h2]
      exact ⟨⟨fun h => Except.noConfusion h, fun h => absurd h.2 h2⟩, fun h => absurd h1 h,
        fun _ _ => rfl⟩
  · rw [if_pos h1]
    exact ⟨⟨fun h => Except.noConfusion h, fun h => absurd h.1 h1⟩, fun _ => rfl,
      fun h _ => absurd h h1⟩

/-- Witness for C5 (amended): `"91,0"` matches the regex, parses as
`(91, 0)`, and is rejected with the latitude-range error. -/
theorem coordinate_validation_ranges_witness :
    is_coordinates "91,0" = true
    ∧ validate_input_format "91,0" = .error (.latOutOfRange 91)
    ∧ validate_input_format "0.5,103.85" = .ok () := by
  have hp0 : pyFloatParts "91".data = some ⟨false, 91, 0, 0, 0⟩ := by decide
  have hp1 : pyFloatParts "0".data = some ⟨false, 0, 0, 0, 0⟩ := by decide
  have hs : splitComma (stripList "91,0".data) = ["91".data, "0".data] := by decide
  have hlat : pyParseFloatL ((splitComma (stripList "91,0".data)).getD 0 []) = some 91 := by
    rw [hs]
    simp only [List.getD_cons_zero, pyParseFloatL, hp0, Option.map_some]
    norm_num [FloatParts.toRat]
  have hlon : pyParseFloatL ((splitComma (stripList "91,0".data)).getD 1 []) = some 0 := by
    rw [hs]
    simp only [List.getD_cons_zero, List.getD_cons_succ, pyParseFloatL, hp1, Option.map_some]
    norm_num [FloatParts.toRat]
  refine ⟨by decide, ?_, ?_⟩
  · exact (coordinate_validation_ranges "91,0" 91 0 (by decide) hlat hlon).2.1
      (by norm_num)
  · have hp2 : pyFloatParts "0.5".data = some ⟨false, 0, 5, 1, 0⟩ := by decide
    have hp3 : pyFloatParts "103.85".data = some ⟨false, 103, 85, 2, 0⟩ := by decide
    have hs2 : splitComma (stripList "0.5,103.85".data) = ["0.5".data, "103.85".data] := by
      decide
    have hlat2 : pyParseFloatL ((splitComma (stripList "0.5,103.85".data)).getD 0 [])
        = some (1 / 2) := by
      rw [hs2]
      simp only [List.getD_cons_zero, pyParseFloatL, hp2, Option.map_some]
      norm_num [FloatParts.toRat]
    have hlon2 : pyParseFloatL ((splitComma (stripList "0.5,103.85".data)).getD 1 [])
        = some (10385 / 100) := by
      rw [hs2]
      simp only [List.getD_cons_zero, List.getD_cons_succ, pyParseFloatL, hp3, Option.map_some]
      norm_num [FloatParts.toRat]
    exact (coordinate_validation_ranges "0.5,103.85" (1 / 2) (10385 / 100)
      (by decide) hlat2 hlon2).1.mpr (by norm_num)

/-- Counterexample to C4 as stated: an unexpected exception raised inside
`fetch_weather` while processing a successful HTTP response is logged and
**re-raised** past the adapter boundary (the base class's `except` clause
ends in `raise`), not converted to a failure marker; and OpenMeteo's
geocoding failure makes `fetch_weather` return `None`, which carries no
provider name, status or elapsed time. -/
theorem adapter_never_raises_counterexample :
    base_fetch_weather "OpenWeatherMap" (.ok ()) ⟨"OpenWeatherMap", "success", 120⟩
        (.error (.exn "KeyError: main")) = .error (.exn "KeyError: main")
    ∧ openmeteo_fetch_weather "Singapore" false none ⟨"OpenMeteo", "success", 50⟩
        (.ok ⟨none, some 25, none, some "Clear", ⟨"OpenMeteo", "success", 50⟩⟩) = none := by
  constructor <;> rfl

/-- C4 (amended). The adapters return the uniform failure marker — provider
name, status `"failure"`, elapsed time — whenever the HTTP request itself
fails, and the OpenWeatherMap/WeatherAPI base implementation additionally
re-raises any exception arising while preparing the request or processing a
successful response (the service's `gather` absorbs it); OpenMeteo never
raises, returns the marker for HTTP-level failures, and returns `None` —
not a failure marker — when geocoding fails or an internal exception
occurs. -/
theorem adapter_failure_semantics (provider_name location : String) (api : ApiResult)
    (process : Except PyExn ProviderData) (e : PyExn) (coords : ℚ × ℚ) :
    (api.status ≠ "success" →
      base_fetch_weather provider_name (.ok ()) api process
        = .ok (_create_failure_response provider_name api))
    ∧ (_create_failure_response provider_name api).source
        = ⟨provider_name, "failure", api.response_time_ms⟩
    ∧ (api.status = "success" → process = .error e →
        base_fetch_weather provider_name (.ok ()) api process = .error e)
    ∧ base_fetch_weather provider_name (.error e) api process = .error e
    ∧ openmeteo_fetch_weather location false none api process = none
    ∧ (api.status ≠ "success" →
        openmeteo_fetch_weather location false (some coords) api process
          = some (_create_failure_response "OpenMeteo" api))
    ∧ (api.status = "success" → process = .error e →
        openmeteo_fetch_weather location false (some coords) api process = none) := by
  refine ⟨?_, rfl, ?_, rfl, rfl, ?_, ?_⟩
  · intro h
    simp [base_fetch_weather, h]
  · intro hs hp
    simp [base_fetch_weather, hs, hp]
  · intro h
    simp [openmeteo_fetch_weather, openmeteo_fetch_with_coordinates, h, Except.map]
  · intro hs hp
    simp [openmeteo_fetch_weather, openmeteo_fetch_with_coordinates, hs, hp, Except.map]

/-- Witness for C4 (amended): a failed HTTP request yields the marker for
the base adapter, and OpenMeteo yields `None` after a failed geocoding. -/
theorem adapter_failure_semantics_witness :
    ("failure - Client error (HTTP 404)" : String) ≠ "success"
    ∧ base_fetch_weather "WeatherAPI" (.ok ())
        ⟨"WeatherAPI", "failure - Client error (HTTP 404)", 33⟩
        (.ok ⟨none, none, none, none, ⟨"WeatherAPI", "success", 33⟩⟩)
      = .ok (_create_failure_response "WeatherAPI"
          ⟨"WeatherAPI", "failure - Client error (HTTP 404)", 33⟩)
    ∧ openmeteo_fetch_weather "Singapore" false none
        ⟨"OpenMeteo", "failure - Request timeout after 8.0s", 8000⟩
        (.ok ⟨none, none, none, none, ⟨"OpenMeteo", "success", 8000⟩⟩) = none :=
  ⟨by decide,
    (adapter_failure_semantics "WeatherAPI" "Singapore"
      ⟨"WeatherAPI", "failure - Client error (HTTP 404)", 33⟩
      (.ok ⟨none, none, none, none, ⟨"WeatherAPI", "success", 33⟩⟩)
      (.exn "e") (0, 0)).1 (by decide),
    (adapter_failure_semantics "OpenMeteo" "Singapore"
      ⟨"OpenMeteo", "failure - Request timeout after 8.0s", 8000⟩
      (.ok ⟨none, none, none, none, ⟨"OpenMeteo", "success", 8000⟩⟩)
      (.exn "e") (0, 0)).2.2.2.2.1⟩

end WeatherAgg
